import Mathlib

/-!
Verification of the NaijaFloodWatch core pipeline: geospatial ingestion
(load_lga_gdf), baseline loading (load_baseline), risk classification
(determine_risk_level), upstream ratio computation (app.py), and the
time-series chart assembly (generate_time_series_chart).

Numbers are modelled as rationals (the Python code compares floats against
the literals 0.8 and 1.2 with plain ordering, which the rational order
reflects exactly); absent values (Python None) are modelled with Option.
-/

namespace NaijaFloodWatch

/-! ## Risk classifier (src/utils.py, determine_risk_level) -/

/--
Embedding of determine_risk_level from src/utils.py lines 232-241.
The Python code:
  if ratio is None or pd.isna(ratio): return "No Data", "#CCCCCC"
  elif ratio <= 0.8: return "Low", "#4CAF50"
  elif ratio <= 1.2: return "Medium", "#FFC107"
  else: return "High", "#F44336"
The absent value (None) is modelled as Option.none; NaN has no rational
counterpart and is subsumed by the absent case, which the code treats
identically.
-/
def determine_risk_level (ratio : Option ℚ) : String × String :=
  match ratio with
  | none => ("No Data", "#CCCCCC")
  | some r =>
    if r ≤ 8/10 then ("Low", "#4CAF50")
    else if r ≤ 12/10 then ("Medium", "#FFC107")
    else ("High", "#F44336")

/-- The abstract risk tiers of the specification data model
(Low, Medium, High, Unknown). -/
inductive RiskTier where
  | low
  | medium
  | high
  | unknown
deriving Repr, DecidableEq

/-- Spec-side interpretation: maps the display label produced by the code
to the abstract tier of the specification; the label "No Data" is the
rendering of the tier the specification calls Unknown, the no-data tier. -/
def riskTierOfLabel (label : String) : RiskTier :=
  if label = "Low" then RiskTier.low
  else if label = "Medium" then RiskTier.medium
  else if label = "High" then RiskTier.high
  else RiskTier.unknown

/-! ## Upstream ratio computation (src/app.py lines 377-381 and 448-451) -/

/--
Embedding of the ratio computation in src/app.py; both the forecast branch
(lines 377-381) and the historical branch (lines 448-451) use the same
expression:
  ratio = discharge/base if base and discharge else None
Python truthiness: None is falsy and the float 0.0 is falsy, while every
nonzero float (negative included) is truthy.
-/
def compute_ratio (discharge base : Option ℚ) : Option ℚ :=
  match base, discharge with
  | some b, some d => if b ≠ 0 ∧ d ≠ 0 then some (d / b) else none
  | _, _ => none

/-! ## GeoJSON area loader (src/utils.py, load_lga_gdf) -/

/-- A column of the loaded GeoDataFrame: its name and whether its pandas
dtype is object (the dtype test the fallback in the code performs). -/
structure Column where
  colName : String
  isObject : Bool
deriving Repr, DecidableEq

/-- An area record as returned by the loader: the LGA name and the state
name. The centroid coordinates the code also computes depend on the
geometry library and are outside the scope of the claims below. -/
structure AreaRecord where
  lga : String
  state : String
deriving Repr, DecidableEq

/-- The candidate LGA-name properties, in the order the code lists them:
`name_cols = ['ADM2_NAME','NAME_2','NAME2','LGA_NAME','ADM2nm','NAME']`. -/
def name_cols : List String :=
  ["ADM2_NAME", "NAME_2", "NAME2", "LGA_NAME", "ADM2nm", "NAME"]

/-- Whether a column belongs to the candidate set: `c in name_cols`. -/
def isNameCandidate (c : Column) : Bool :=
  name_cols.contains c.colName

/-- Whether a column qualifies for the fallback scan: object dtype and not
geometry or NAME_1, as in
`gdf[c].dtype == object and c not in ['geometry','NAME_1']`. -/
def isFallbackNameCol (c : Column) : Bool :=
  c.isObject && c.colName != "geometry" && c.colName != "NAME_1"

/--
The LGA-name column selection of src/utils.py lines 36-45:
  lga_col = next((c for c in gdf.columns if c in name_cols), None)
  if not lga_col:
      lga_col = next((c for c in gdf.columns
                      if gdf[c].dtype == object
                      and c not in ['geometry','NAME_1']), None)
Both scans run over the columns in file order; the first matching column
of the whole frame wins.
-/
def findLgaCol (cols : List Column) : Option String :=
  match cols.find? isNameCandidate with
  | some c => some c.colName
  | none => (cols.find? isFallbackNameCol).map Column.colName

/-- The State value of one row: the NAME_1 cell when the frame has a
NAME_1 column, else the literal "Unknown"
(`gdf['State'] = 'Unknown'` in the code). -/
def stateOfRow (cols : List Column) (row : List (String × String)) :
    String :=
  if cols.any (fun c => c.colName == "NAME_1") then
    (row.lookup "NAME_1").getD ""
  else "Unknown"

/--
Embedding of the successful-parse path of load_lga_gdf from src/utils.py
lines 14-64: the frame is a column list plus rows given as association
lists from column name to cell text. When no name column is found the
code runs `st.error("Could not identify LGA name column in shapefile")`
and returns None, modelled as the none result; otherwise each feature
becomes an AreaRecord whose lga field is its cell in the single chosen
name column and whose state field follows stateOfRow.
-/
def load_lga_gdf (cols : List Column)
    (rows : List (List (String × String))) : Option (List AreaRecord) :=
  match findLgaCol cols with
  | none => none
  | some lc =>
    some (rows.map (fun row =>
      { lga := (row.lookup lc).getD "", state := stateOfRow cols row }))

/-! ## File-level load outcomes (error policy of src/utils.py) -/

/-- The state of an input file as the loader sees it. -/
inductive FileInput (α : Type) where
  | missing : FileInput α
  | unparsable : FileInput α
  | parsed : α → FileInput α

/-- What a loader call leaves behind: whether an error was surfaced
through st.error, and the returned value. -/
structure LoadOutcome (α : Type) where
  errorShown : Bool
  result : α

/-- load_lga_gdf with its try/except wrapper (src/utils.py lines 16 and
62-64): a missing or unparsable file raises inside the try block, and the
except branch shows the error and returns None; the no-name-column path
also shows an error and returns None. -/
def load_lga_gdf_outcome
    (f : FileInput (List Column × List (List (String × String)))) :
    LoadOutcome (Option (List AreaRecord)) :=
  match f with
  | .missing => ⟨true, none⟩
  | .unparsable => ⟨true, none⟩
  | .parsed g =>
    match load_lga_gdf g.1 g.2 with
    | none => ⟨true, none⟩
    | some recs => ⟨false, some recs⟩

/-! ## Baseline loader (src/utils.py, load_baseline) -/

/--
Embedding of the successful path of load_baseline from src/utils.py lines
70-71: `df.set_index('LGA')['baseline'].to_dict()`. The CSV rows are the
(LGA, baseline) pairs in file order; building a Python dict from them
inserts each pair in order, a later pair under the same key overwriting the
earlier one. The resulting mapping is modelled as a lookup function.
-/
def load_baseline (rows : List (String × ℚ)) : String → Option ℚ :=
  rows.foldl (fun m r => fun k => if k = r.1 then some r.2 else m k)
    (fun _ => none)

/-! ## Series assembler (src/utils.py, generate_time_series_chart) -/

/-- One Plotly scatter trace of the chart: the x values (dates), the y
values, and the trace name the code sets. -/
structure Trace where
  xs : List String
  ys : List ℚ
  traceName : String
deriving Repr, DecidableEq

/--
Embedding of generate_time_series_chart from src/utils.py lines 158-230.
The Python code:
  - returns None when forecast_data is None or forecast_data.empty;
  - otherwise adds the forecast trace with x = forecast_data date column
    and y = forecast_data discharge_max column, in input order;
  - when `baseline_value and not pd.isna(baseline_value)` (None and the
    float 0.0 are falsy; NaN has no rational counterpart and is modelled
    by the absent case) it also adds a constant baseline trace, a constant
    high-threshold trace at 1.2 times the baseline and a constant
    low-threshold trace at 0.8 times the baseline, each over the same date
    column. The intermediate max_discharge and min_discharge values the
    code computes are never used in any trace and are omitted. Layout
    styling is presentation only and is not modelled.
-/
def generate_time_series_chart (forecast_data : Option (List (String × ℚ)))
    (baseline_value : Option ℚ) : Option (List Trace) :=
  match forecast_data with
  | none => none
  | some fd =>
    if fd.isEmpty then none
    else
      let dates := fd.map Prod.fst
      let primary : Trace := ⟨dates, fd.map Prod.snd, "Discharge Forecast"⟩
      match baseline_value with
      | some b =>
        if b ≠ 0 then
          some [primary,
            ⟨dates, List.replicate fd.length b, "Baseline (Sept 14, 2022)"⟩,
            ⟨dates, List.replicate fd.length (b * (12/10)),
              "High Risk Threshold"⟩,
            ⟨dates, List.replicate fd.length (b * (8/10)),
              "Low Risk Threshold"⟩]
        else some [primary]
      | none => some [primary]

/-- load_baseline with its try/except wrapper (src/utils.py lines 69 and
72-74): a missing or unparsable file raises inside the try block, and the
except branch shows the error and returns the empty mapping. -/
def load_baseline_outcome (f : FileInput (List (String × ℚ))) :
    LoadOutcome (String → Option ℚ) :=
  match f with
  | .missing => ⟨true, fun _ => none⟩
  | .unparsable => ⟨true, fun _ => none⟩
  | .parsed rows => ⟨false, load_baseline rows⟩

/-! ## Theorems: C1, C9 -/

/-- C1: for every ratio input to the risk classifier: if the ratio is
absent the tier is Unknown (display label "No Data"); if ratio is at most
0.8 the tier is Low; if the ratio is above 0.8 and at most 1.2 the tier is
Medium; if the ratio is above 1.2 the tier is High; boundaries inclusive:
ratio 0.8 gives Low, ratio 1.2 gives Medium. -/
theorem risk_classifier_thresholds (r : ℚ) :
    determine_risk_level none = ("No Data", "#CCCCCC") ∧
    riskTierOfLabel (determine_risk_level none).1 = RiskTier.unknown ∧
    (r ≤ 8/10 → determine_risk_level (some r) = ("Low", "#4CAF50")) ∧
    (8/10 < r ∧ r ≤ 12/10 →
      determine_risk_level (some r) = ("Medium", "#FFC107")) ∧
    (12/10 < r → determine_risk_level (some r) = ("High", "#F44336")) ∧
    determine_risk_level (some (8/10)) = ("Low", "#4CAF50") ∧
    determine_risk_level (some (12/10)) = ("Medium", "#FFC107") := by
  refine ⟨rfl, rfl, ?_, ?_, ?_, by norm_num [determine_risk_level],
    by norm_num [determine_risk_level]⟩
  · intro h
    simp [determine_risk_level, h]
  · rintro ⟨h1, h2⟩
    simp [determine_risk_level, h2, not_le.mpr h1]
  · intro h
    simp [determine_risk_level, not_le.mpr h,
      not_le.mpr (lt_trans (by norm_num : (8:ℚ)/10 < 12/10) h)]

/-- Witness for C1 at concrete ratios in each bucket. -/
theorem risk_classifier_thresholds_witness :
    determine_risk_level (some (1/2)) = ("Low", "#4CAF50") ∧
    determine_risk_level (some 1) = ("Medium", "#FFC107") ∧
    determine_risk_level (some 2) = ("High", "#F44336") ∧
    determine_risk_level none = ("No Data", "#CCCCCC") := by
  refine ⟨(risk_classifier_thresholds (1/2)).2.2.1 (by norm_num),
    (risk_classifier_thresholds 1).2.2.2.1 ⟨by norm_num, by norm_num⟩,
    (risk_classifier_thresholds 2).2.2.2.2.1 (by norm_num),
    (risk_classifier_thresholds 0).1⟩

/-- C9: the risk classifier is a pure total function with no error path:
every rational ratio, and the absent value, maps to exactly one
(tier label, display color) pair, always one of the four fixed pairs. -/
theorem risk_classifier_total (r : Option ℚ) :
    (∃! p : String × String, determine_risk_level r = p) ∧
    determine_risk_level r ∈
      [("No Data", "#CCCCCC"), ("Low", "#4CAF50"),
       ("Medium", "#FFC107"), ("High", "#F44336")] := by
  refine ⟨⟨determine_risk_level r, rfl, fun y hy => hy.symm⟩, ?_⟩
  match r with
  | none => simp [determine_risk_level]
  | some v =>
    by_cases h1 : v ≤ 8/10
    · simp [determine_risk_level, h1]
    · by_cases h2 : v ≤ 12/10
      · simp [determine_risk_level, h1, h2]
      · simp [determine_risk_level, h1, h2]

/-! ## Theorems: C3, C10 -/

/-- C3 counterexample: with a negative baseline of -5 and a discharge of
10, the upstream guard `if base and discharge` lets the division through
(a negative float is truthy in Python), so the classifier receives the
ratio -2 instead of the absent value the claim promises. -/
theorem ratio_negative_baseline_not_guarded :
    compute_ratio (some 10) (some (-5)) = some (-2) ∧
    determine_risk_level (compute_ratio (some 10) (some (-5))) =
      ("Low", "#4CAF50") := by
  constructor
  · norm_num [compute_ratio]
  · norm_num [compute_ratio, determine_risk_level]

/-- C3 amended: the ratio handed to the risk classifier is computed
upstream as discharge / baseline, and the ratio is treated as absent when
the baseline is absent or zero (or the discharge absent or zero); a
negative baseline is not guarded and produces a (negative) ratio. -/
theorem ratio_zero_baseline_guarded (d : Option ℚ) (b : ℚ) :
    compute_ratio d none = none ∧
    compute_ratio d (some 0) = none ∧
    (∀ dv : ℚ, d = some dv → dv ≠ 0 → b ≠ 0 →
      compute_ratio d (some b) = some (dv / b)) := by
  refine ⟨by cases d <;> rfl, by cases d <;> simp [compute_ratio], ?_⟩
  intro dv hd hdv hb
  subst hd
  simp [compute_ratio, hdv, hb]

/-- Witness for the amended C3 at discharge 10 and baseline -5. -/
theorem ratio_zero_baseline_guarded_witness :
    compute_ratio (some 10) none = none ∧
    compute_ratio (some 10) (some 0) = none ∧
    compute_ratio (some 10) (some (-5)) = some (-2) := by
  obtain ⟨h1, h2, h3⟩ := ratio_zero_baseline_guarded (some 10) (-5)
  refine ⟨h1, h2, ?_⟩
  rw [h3 10 rfl (by norm_num) (by norm_num)]
  norm_num

/-- C10: an observation whose discharge is 0.0 is falsy in Python, so the
guard `if base and discharge` makes the ratio absent even when a positive
baseline exists; the classifier then yields the no-data tier ("No Data",
the tier the spec calls Unknown), not Low. -/
theorem zero_discharge_gives_no_data (b : ℚ) (_hb : 0 < b) :
    compute_ratio (some 0) (some b) = none ∧
    determine_risk_level (compute_ratio (some 0) (some b)) =
      ("No Data", "#CCCCCC") ∧
    riskTierOfLabel
      (determine_risk_level (compute_ratio (some 0) (some b))).1 =
      RiskTier.unknown := by
  have h0 : compute_ratio (some 0) (some b) = none := by
    simp [compute_ratio]
  exact ⟨h0, by rw [h0]; rfl, by rw [h0]; rfl⟩

/-- Witness for C10 at baseline 150. -/
theorem zero_discharge_gives_no_data_witness :
    compute_ratio (some 0) (some 150) = none ∧
    determine_risk_level (compute_ratio (some 0) (some 150)) =
      ("No Data", "#CCCCCC") ∧
    riskTierOfLabel
      (determine_risk_level (compute_ratio (some 0) (some 150))).1 =
      RiskTier.unknown :=
  zero_discharge_gives_no_data 150 (by norm_num)

/-! ## Theorems: C4 -/

/-- Folding load_baseline over rows none of which carry the key k leaves
the accumulated mapping unchanged at k. -/
theorem load_baseline_foldl_no_key (l : List (String × ℚ))
    (m : String → Option ℚ) (k : String) (h : ∀ r ∈ l, r.1 ≠ k) :
    l.foldl (fun m r => fun k => if k = r.1 then some r.2 else m k) m k
      = m k := by
  induction l generalizing m with
  | nil => rfl
  | cons r rest ih =>
    rw [List.foldl_cons]
    rw [ih _ (fun r hr => h r (List.mem_cons_of_mem _ hr))]
    have hr : r.1 ≠ k := h r (List.mem_cons_self r rest)
    have hk : k ≠ r.1 := fun hk => hr hk.symm
    simp [hk]

/-- C4: for every baseline CSV containing duplicate area names, the
resulting mapping assigns each name the value of the last row in file
order: if the rows split as l1 ++ [(k, v)] ++ l2 with no later row for k
in l2, the mapping sends k to v. -/
theorem baseline_last_seen_wins (l1 l2 : List (String × ℚ)) (k : String)
    (v : ℚ) (h : ∀ r ∈ l2, r.1 ≠ k) :
    load_baseline (l1 ++ (k, v) :: l2) k = some v := by
  unfold load_baseline
  rw [List.foldl_append, List.foldl_cons]
  rw [load_baseline_foldl_no_key l2 _ k h]
  simp

/-- Witness for C4: rows [("X",10),("X",20)] map "X" to 20. -/
theorem baseline_last_seen_wins_witness :
    load_baseline [("X", (10 : ℚ)), ("X", 20)] "X" = some 20 :=
  baseline_last_seen_wins [("X", 10)] [] "X" 20 (by simp)

/-! ## Theorems: C6, C7, C8 -/

/-- C6: for the empty series (and for an absent data frame) the series
assembler returns the explicit no-chart sentinel, not an
empty-but-valid chart. -/
theorem chart_empty_series_sentinel (b : Option ℚ) :
    generate_time_series_chart (some []) b = none ∧
    generate_time_series_chart none b = none :=
  ⟨rfl, rfl⟩

/-- C7 counterexample: a present baseline of 0.0 is falsy in Python, so
the guard `if baseline_value and not pd.isna(baseline_value)` skips the
reference and threshold traces: the chart for a one-point series with
baseline 0 holds only the primary line, while the claim promises a
reference line and two threshold lines for every present baseline. -/
theorem chart_zero_baseline_no_thresholds :
    generate_time_series_chart (some [("2022-09-14", (5 : ℚ))]) (some 0) =
      some [⟨["2022-09-14"], [5], "Discharge Forecast"⟩] := by
  simp [generate_time_series_chart]

/-- C7 amended: for every non-empty series, if a baseline b is present and
nonzero the chart holds the primary line, a constant reference trace at b
over the series dates, a constant threshold trace at 1.2 times b and a
constant threshold trace at 0.8 times b; if the baseline is absent, or
present but zero, the chart holds only the primary line. -/
theorem chart_threshold_lines (fd : List (String × ℚ)) (b : ℚ)
    (hfd : fd ≠ []) :
    generate_time_series_chart (some fd) none =
      some [⟨fd.map Prod.fst, fd.map Prod.snd, "Discharge Forecast"⟩] ∧
    (b ≠ 0 → generate_time_series_chart (some fd) (some b) =
      some [⟨fd.map Prod.fst, fd.map Prod.snd, "Discharge Forecast"⟩,
        ⟨fd.map Prod.fst, List.replicate fd.length b,
          "Baseline (Sept 14, 2022)"⟩,
        ⟨fd.map Prod.fst, List.replicate fd.length (b * (12/10)),
          "High Risk Threshold"⟩,
        ⟨fd.map Prod.fst, List.replicate fd.length (b * (8/10)),
          "Low Risk Threshold"⟩]) ∧
    generate_time_series_chart (some fd) (some 0) =
      some [⟨fd.map Prod.fst, fd.map Prod.snd, "Discharge Forecast"⟩] := by
  match fd, hfd with
  | p :: rest, _ =>
    refine ⟨rfl, fun hb => ?_, by simp [generate_time_series_chart]⟩
    simp [generate_time_series_chart, hb]

/-- Witness for the amended C7 on a two-point series with baseline 100:
thresholds are the constant lines 120 and 80. -/
theorem chart_threshold_lines_witness :
    generate_time_series_chart
      (some [("2025-01-01", (90 : ℚ)), ("2025-01-02", 130)]) none =
      some [⟨["2025-01-01", "2025-01-02"], [90, 130],
        "Discharge Forecast"⟩] ∧
    generate_time_series_chart
      (some [("2025-01-01", (90 : ℚ)), ("2025-01-02", 130)]) (some 100) =
      some [⟨["2025-01-01", "2025-01-02"], [90, 130],
          "Discharge Forecast"⟩,
        ⟨["2025-01-01", "2025-01-02"], [100, 100],
          "Baseline (Sept 14, 2022)"⟩,
        ⟨["2025-01-01", "2025-01-02"], [120, 120],
          "High Risk Threshold"⟩,
        ⟨["2025-01-01", "2025-01-02"], [80, 80],
          "Low Risk Threshold"⟩] := by
  obtain ⟨h1, h2, h3⟩ := chart_threshold_lines
    [("2025-01-01", (90 : ℚ)), ("2025-01-02", 130)] 100 (by simp)
  refine ⟨h1, ?_⟩
  rw [h2 (by norm_num)]
  norm_num [List.replicate]

/-- C8: for every input series (ascending by date or not) and every
baseline, the series assembler builds the primary, first trace from the
series unchanged: x is the date column and y the discharge column in
input order, with no re-sorting. -/
theorem chart_primary_preserves_order (fd : List (String × ℚ))
    (b : Option ℚ) (hfd : fd ≠ []) :
    (generate_time_series_chart (some fd) b).bind List.head? =
      some ⟨fd.map Prod.fst, fd.map Prod.snd, "Discharge Forecast"⟩ := by
  match fd, hfd with
  | p :: rest, _ =>
    match b with
    | none => rfl
    | some bv =>
      by_cases hb : bv ≠ 0
      · simp [generate_time_series_chart, hb]
      · simp [generate_time_series_chart, hb]

/-- Witness for C8 on a series whose dates are out of ascending order:
the primary trace still follows the input order. -/
theorem chart_primary_preserves_order_witness :
    (generate_time_series_chart
        (some [("2025-01-02", (1 : ℚ)), ("2025-01-01", 2)])
        (some 100)).bind List.head? =
      some ⟨["2025-01-02", "2025-01-01"], [1, 2], "Discharge Forecast"⟩ :=
  chart_primary_preserves_order
    [("2025-01-02", (1 : ℚ)), ("2025-01-01", 2)] (some 100) (by simp)

/-! ## Theorems: C2, C5 -/

/-- A column is a name candidate exactly when its name is in the
candidate list. -/
theorem isNameCandidate_iff (c : Column) :
    isNameCandidate c = true ↔ c.colName ∈ name_cols := by
  simp [isNameCandidate, List.contains, List.elem_iff]

/-- A column qualifies for the fallback scan exactly when it has object
dtype and is not the geometry or NAME_1 column. -/
theorem isFallbackNameCol_iff (c : Column) :
    isFallbackNameCol c = true ↔
      c.isObject = true ∧ c.colName ≠ "geometry" ∧
        c.colName ≠ "NAME_1" := by
  simp only [isFallbackNameCol, Bool.and_eq_true, bne_iff_ne, ne_eq]
  tauto

/-- The name-column search fails exactly when both scans fail. -/
theorem findLgaCol_eq_none_split (cols : List Column) :
    findLgaCol cols = none ↔
      cols.find? isNameCandidate = none ∧
      cols.find? isFallbackNameCol = none := by
  unfold findLgaCol
  rcases hc : cols.find? isNameCandidate with _ | c
  · rcases hfb : cols.find? isFallbackNameCol with _ | c2 <;> simp
  · simp

/-- The name-column search fails exactly when no column is a candidate
and no column qualifies for the object-dtype fallback. -/
theorem findLgaCol_eq_none_iff (cols : List Column) :
    findLgaCol cols = none ↔
      (∀ c ∈ cols, c.colName ∉ name_cols) ∧
      (∀ c ∈ cols, ¬(c.isObject = true ∧ c.colName ≠ "geometry" ∧
        c.colName ≠ "NAME_1")) := by
  rw [findLgaCol_eq_none_split, List.find?_eq_none, List.find?_eq_none]
  constructor
  · rintro ⟨h1, h2⟩
    refine ⟨fun c hcc => ?_, fun c hcc => ?_⟩
    · intro hmem
      exact h1 c hcc ((isNameCandidate_iff c).mpr hmem)
    · intro hq
      exact h2 c hcc ((isFallbackNameCol_iff c).mpr hq)
  · rintro ⟨h1, h2⟩
    refine ⟨fun c hcc hp => ?_, fun c hcc hp => ?_⟩
    · exact h1 c hcc ((isNameCandidate_iff c).mp hp)
    · exact h2 c hcc ((isFallbackNameCol_iff c).mp hp)

/-- C2 counterexample: a frame whose only columns are the geometry and a
numeric id carries no recognized name field, and the loader returns the
none failure value (after surfacing an error) instead of loading the
feature under the literal name "Unknown". -/
theorem load_fails_without_name_column :
    load_lga_gdf
      [⟨"geometry", false⟩, ⟨"OBJECTID", false⟩]
      [[("geometry", "POLYGON"), ("OBJECTID", "1")]] = none := by
  decide

/-- C2 amended: the loader selects a single name column for the whole
frame, not per feature: the first column in file order belonging to the
candidate set; failing that, the first other object-dtype column besides
geometry and NAME_1; when no such column exists the whole load fails and
returns the none value (the literal "Unknown" is assigned to the state
field when NAME_1 is absent, not to the area name). -/
theorem name_column_resolution (cols : List Column)
    (rows : List (List (String × String))) :
    (load_lga_gdf cols rows = none ↔
      (∀ c ∈ cols, c.colName ∉ name_cols) ∧
      (∀ c ∈ cols, ¬(c.isObject = true ∧ c.colName ≠ "geometry" ∧
        c.colName ≠ "NAME_1"))) ∧
    (∀ c, cols.find? isNameCandidate = some c →
      load_lga_gdf cols rows = some (rows.map (fun row =>
        { lga := (row.lookup c.colName).getD "",
          state := stateOfRow cols row }))) ∧
    ((∀ c ∈ cols, c.colName ≠ "NAME_1") →
      ∀ recs, load_lga_gdf cols rows = some recs →
        ∀ r ∈ recs, r.state = "Unknown") := by
  refine ⟨?_, ?_, ?_⟩
  · unfold load_lga_gdf
    rw [← findLgaCol_eq_none_iff]
    rcases h : findLgaCol cols with _ | lc <;> simp [h]
  · intro c hc
    unfold load_lga_gdf findLgaCol
    rw [hc]
  · intro hno recs hrecs r hr
    unfold load_lga_gdf at hrecs
    rcases h : findLgaCol cols with _ | lc <;> rw [h] at hrecs
    · exact absurd hrecs (by simp)
    · have : recs = rows.map (fun row =>
        { lga := (row.lookup lc).getD "", state := stateOfRow cols row }) :=
        by injection hrecs with h2; exact h2.symm
      subst this
      obtain ⟨row, _, hrow⟩ := List.mem_map.mp hr
      have hstate : stateOfRow cols row = "Unknown" := by
        unfold stateOfRow
        have : cols.any (fun c => c.colName == "NAME_1") = false := by
          rw [List.any_eq_false]
          intro c hcc
          simpa using hno c hcc
        rw [this]
        simp
      rw [← hrow]
      exact hstate

/-- Witness for the amended C2: a frame with an ADM2_NAME column loads
its one feature under that name with state "Unknown", and a frame with
no usable column fails. -/
theorem name_column_resolution_witness :
    load_lga_gdf [⟨"ADM2_NAME", true⟩] [[("ADM2_NAME", "Ikeja")]] =
      some [⟨"Ikeja", "Unknown"⟩] ∧
    load_lga_gdf [⟨"geometry", false⟩] [[("geometry", "POLYGON")]] =
      none := by
  obtain ⟨_, hsel, _⟩ := name_column_resolution
    [⟨"ADM2_NAME", true⟩] [[("ADM2_NAME", "Ikeja")]]
  obtain ⟨hiff, _, _⟩ := name_column_resolution
    [⟨"geometry", false⟩] [[("geometry", "POLYGON")]]
  constructor
  · have := hsel ⟨"ADM2_NAME", true⟩ (by decide)
    rw [this]
    decide
  · exact hiff.mpr (by decide)

/-- C5: for every missing or unparsable input file, the GeoJSON area
loader and the baseline CSV loader each surface the load error and return
no records (the none value for the area loader, the empty mapping for the
baseline loader). -/
theorem loaders_fail_with_load_error
    (f : FileInput (List Column × List (List (String × String))))
    (g : FileInput (List (String × ℚ)))
    (hf : f = FileInput.missing ∨ f = FileInput.unparsable)
    (hg : g = FileInput.missing ∨ g = FileInput.unparsable) :
    (load_lga_gdf_outcome f).errorShown = true ∧
    (load_lga_gdf_outcome f).result = none ∧
    (load_baseline_outcome g).errorShown = true ∧
    (load_baseline_outcome g).result = fun _ => none := by
  rcases hf with h | h <;> rcases hg with h2 | h2 <;> subst h <;>
    subst h2 <;> exact ⟨rfl, rfl, rfl, rfl⟩

/-- Witness for C5 at a missing GeoJSON file and an unparsable CSV. -/
theorem loaders_fail_with_load_error_witness :
    (load_lga_gdf_outcome
      (FileInput.missing :
        FileInput (List Column × List (List (String × String))))).errorShown
      = true ∧
    (load_lga_gdf_outcome
      (FileInput.missing :
        FileInput (List Column × List (List (String × String))))).result
      = none ∧
    (load_baseline_outcome
      (FileInput.unparsable : FileInput (List (String × ℚ)))).errorShown
      = true ∧
    (load_baseline_outcome
      (FileInput.unparsable : FileInput (List (String × ℚ)))).result
      = fun _ => none :=
  loaders_fail_with_load_error FileInput.missing FileInput.unparsable
    (Or.inl rfl) (Or.inr rfl)

end NaijaFloodWatch
